import Mathlib

/-!
Verification of the agent/enforcement simulation engine of the
household waste-segregation ABM (src/agents/household_agent.py,
src/agents/barangay_agent.py, src/agents/enforcement_agent.py,
src/agents/bacolod_model.py).

Python floats are embedded as rationals (ℚ); decimal literals such as
0.05 are written 5/100.  Python objects whose relevant behaviour is
dynamic attribute lookup are embedded as finite attribute-name sets, and
a failing lookup is an `Except.error` carrying the AttributeError.
-/

namespace WasteSeg

/-- Python-style clamp `max(0.0, min(1.0, x))` used throughout the model. -/
def clamp01 (x : ℚ) : ℚ := max 0 (min 1 x)

/-- The policy fields a household reads from its owning barangay object:
`iec_intensity`, `enforcement_intensity` and `fine_amount`, injected on the
`BarangayAgent` by `BacolodModel.__init__` (bacolod_model.py lines 76-78). -/
structure BarangayPolicy where
  iec_intensity : ℚ
  enforcement_intensity : ℚ
  fine_amount : ℚ
deriving DecidableEq

/-- Mutable state of a `HouseholdAgent` (household_agent.py `__init__`,
lines 13-36), plus the `barangay_id` back-reference injected by
`BacolodModel.__init__` and the `caught_recently` flag injected by
`get_fined`. -/
structure HouseholdAgent where
  income_level : ℤ
  attitude : ℚ
  pbc : ℚ
  social_norm : ℚ
  is_compliant : Bool
  utility : ℚ
  caught_recently : Bool
  barangay_id : String
deriving DecidableEq

/-- The effective `HouseholdAgent.update_attitude` — the second definition of
the method in the class body (household_agent.py lines 153-164), which in
Python shadows the first.  It decays attitude by 0.01 with a floor at 0 and
then, only when the barangay's IEC intensity is positive, adds a boost of
`iec_intensity * 0.05` capped at 1.  It reads nothing else from the
barangay. -/
def HouseholdAgent.update_attitude (a : HouseholdAgent) (bgy : BarangayPolicy) :
    HouseholdAgent :=
  let decay_rate : ℚ := 1/100
  let decayed := max 0 (a.attitude - decay_rate)
  if bgy.iec_intensity > 0 then
    { a with attitude := min 1 (decayed + bgy.iec_intensity * (5/100)) }
  else
    { a with attitude := decayed }

/-- The first, shadowed definition of `HouseholdAgent.update_attitude`
(household_agent.py lines 38-59): decay by `attitude_decay_rate = 0.005`,
IEC boost `iec_intensity * 0.02`, a reactance penalty of 0.002 when the
barangay's enforcement intensity exceeds 0.8, then a clamp to [0,1].
Because the class defines `update_attitude` twice, this body is dead code. -/
def HouseholdAgent.update_attitude_shadowed (a : HouseholdAgent)
    (bgy : BarangayPolicy) : HouseholdAgent :=
  let att1 := a.attitude - 5/1000
  let att2 := att1 + bgy.iec_intensity * (2/100)
  let att3 := if bgy.enforcement_intensity > 8/10 then att2 - 2/1000 else att2
  { a with attitude := clamp01 att3 }

/-- A neighbour as seen through the grid query in `update_social_norms`:
only its `barangay_id` and `is_compliant` fields are read. -/
structure NeighborView where
  barangay_id : String
  is_compliant : Bool
deriving DecidableEq

/-- `HouseholdAgent.update_social_norms` (household_agent.py lines 61-86):
filter the grid neighbours to households of the same barangay; with no such
neighbour return 0.5; otherwise from the raw compliant fraction return
`min(1.0, raw * 1.2)` when `raw > 0.5` and `raw * 0.8 + 0.2` otherwise. -/
def HouseholdAgent.update_social_norms (a : HouseholdAgent)
    (neighbors : List NeighborView) : ℚ :=
  let household_neighbors := neighbors.filter (fun n => n.barangay_id == a.barangay_id)
  if household_neighbors.isEmpty then 1/2
  else
    let compliant_count : ℚ := ((household_neighbors.filter (fun n => n.is_compliant)).length : ℚ)
    let total_neighbors : ℚ := (household_neighbors.length : ℚ)
    let raw_norm := compliant_count / total_neighbors
    if raw_norm > 1/2 then min 1 (raw_norm * (12/10))
    else raw_norm * (8/10) + 2/10

/-- The running totals of the model's financial ledger relevant to fines
(`BacolodModel.__init__`, bacolod_model.py lines 48-52). -/
structure Ledger where
  total_fines_collected : ℚ
  recent_fines_collected : ℚ
deriving DecidableEq

/-- `HouseholdAgent.get_fined` (household_agent.py lines 88-98): sets the
`caught_recently` flag and subtracts 0.5 from the current utility.  The body
touches no other household field and no model state, so the ledger is
returned unchanged. -/
def HouseholdAgent.get_fined (a : HouseholdAgent) (ledger : Ledger) :
    HouseholdAgent × Ledger :=
  ({ a with caught_recently := true, utility := a.utility - 1/2 }, ledger)

/-- The income-sensitivity weight `{1: 1.5, 2: 1.2, 3: 1.0}.get(level, 1.0)`
from `calculate_utility` (household_agent.py line 122). -/
def gamma_weight (income_level : ℤ) : ℚ :=
  if income_level = 1 then 3/2
  else if income_level = 2 then 6/5
  else if income_level = 3 then 1
  else 1

/-- The arithmetic of `HouseholdAgent.calculate_utility` (household_agent.py
lines 100-133).  `reward_value` is the value the attribute read
`self.model.reward_value` of line 113 would produce if it succeeded;
`epsilon` is the noise draw `np.random.normal(0, 0.05)`.  The read itself
can fail — no code in the repository ever assigns `reward_value` on a
model — and `calculate_utility_run` below embeds that fallible read;
this pure version is the formula both share. -/
def HouseholdAgent.calculate_utility (a : HouseholdAgent) (bgy : BarangayPolicy)
    (reward_value : ℚ) (epsilon : ℚ) : ℚ :=
  let tpb_score := (4/10) * a.attitude + (3/10) * a.social_norm + (3/10) * a.pbc
  let c_effort : ℚ := 1/10
  let c_monetary : ℚ := 5/100
  let incentive := if a.is_compliant then reward_value else 0
  let expected_fine := bgy.fine_amount * bgy.enforcement_intensity
  let normalized_fine := expected_fine / 1000
  let c_net := ((c_effort + c_monetary - incentive) - normalized_fine) * gamma_weight a.income_level
  tpb_score - c_net + epsilon

/-- The behavioural-state updates of `HouseholdAgent.step` (household_agent.py
lines 135-147): attitude update (the effective definition), social-norm
assignment, utility computation, and the compliance decision
`utility > 0.5`.  On a real run the attitude and social-norm parts always
execute; the utility and compliance parts take effect only when the
utility computation succeeds, i.e. when the household enters the step
non-compliant (see `step_run` for the abort path). -/
def HouseholdAgent.step_updates (a : HouseholdAgent) (bgy : BarangayPolicy)
    (neighbors : List NeighborView) (reward_value epsilon : ℚ) : HouseholdAgent :=
  let a1 := a.update_attitude bgy
  let a2 := { a1 with social_norm := a1.update_social_norms neighbors }
  let u := a2.calculate_utility bgy reward_value epsilon
  { a2 with utility := u, is_compliant := decide (u > 1/2) }

/-- The attribute names present on a `HouseholdAgent` instance: the fields
assigned in `__init__`, the methods of the class body, the back-references
injected by `BacolodModel.__init__` (`barangay`, `barangay_id`), the flag
injected by `get_fined`, and the mesa `Agent` base attributes.
`make_decision` is not among them: no definition or assignment of that name
exists anywhere in the repository. -/
def householdAgentAttrs : List String :=
  ["unique_id", "model", "pos", "random",
   "income_level", "attitude", "pbc", "social_norm", "is_compliant", "utility",
   "attitude_decay_rate", "caught_recently", "barangay", "barangay_id",
   "update_attitude", "update_social_norms", "get_fined", "calculate_utility",
   "step"]

/-- Dynamic attribute lookup on an object with attribute set `attrs`:
a missing name raises `AttributeError`. -/
def pyGetattr (attrs : List String) (nm : String) : Except String Unit :=
  if nm ∈ attrs then Except.ok () else Except.error ("AttributeError: " ++ nm)

/-- `HouseholdAgent.calculate_utility` with the attribute read of line 113
made explicit: `incentive = self.model.reward_value if self.is_compliant
else 0.0` reads `reward_value` off the model only when the household is
compliant.  `model_reward_value` is the state of that attribute on the
model object: `none` when absent — which is the repository's actual state,
since no code anywhere ever assigns `reward_value` — and `some v` if it
were present with value `v`.  A missing attribute raises AttributeError,
which propagates out of `calculate_utility`. -/
def HouseholdAgent.calculate_utility_run (a : HouseholdAgent) (bgy : BarangayPolicy)
    (model_reward_value : Option ℚ) (epsilon : ℚ) : Except String ℚ := do
  let incentive : ℚ ←
    if a.is_compliant then
      match model_reward_value with
      | some v => Except.ok v
      | none => Except.error ("AttributeError: reward_value")
    else Except.ok 0
  let tpb_score := (4/10) * a.attitude + (3/10) * a.social_norm + (3/10) * a.pbc
  let c_effort : ℚ := 1/10
  let c_monetary : ℚ := 5/100
  let expected_fine := bgy.fine_amount * bgy.enforcement_intensity
  let normalized_fine := expected_fine / 1000
  let c_net := ((c_effort + c_monetary - incentive) - normalized_fine) * gamma_weight a.income_level
  Except.ok (tpb_score - c_net + epsilon)

/-- `HouseholdAgent.step` in full (household_agent.py lines 135-151): the
attitude and social-norm updates always execute; the call
`self.utility = self.calculate_utility()` then reads
`self.model.reward_value` when the household is compliant, and an
AttributeError there propagates before the utility and compliance-flag
mutations.  When the utility computation succeeds, the decision is taken,
`update_social_norms` is called once more with its result discarded
(pure, no state change), and `self.make_decision()` requires an attribute
lookup of `make_decision` on the instance.  The returned pair is the
household state at the moment the call returns or the exception
propagates, together with the outcome. -/
def HouseholdAgent.step_run (a : HouseholdAgent) (bgy : BarangayPolicy)
    (neighbors : List NeighborView) (model_reward_value : Option ℚ) (epsilon : ℚ) :
    HouseholdAgent × Except String Unit :=
  let a1 := a.update_attitude bgy
  let a2 := { a1 with social_norm := a1.update_social_norms neighbors }
  match a2.calculate_utility_run bgy model_reward_value epsilon with
  | Except.error e => (a2, Except.error e)
  | Except.ok u =>
    let a3 := { a2 with utility := u, is_compliant := decide (u > 1/2) }
    (a3, pyGetattr householdAgentAttrs "make_decision")

/-- State of a `BarangayAgent` (barangay_agent.py `__init__`, lines 9-25). -/
structure BarangayAgent where
  compliance_rate : ℚ
  total_households : ℕ
  compliant_count : ℕ
  iec_budget : ℚ
  enforcement_budget : ℚ
  incentive_budget : ℚ
  enforcement_intensity : ℚ
  iec_intensity : ℚ
deriving DecidableEq

/-- The flat saturation constant `MAX_IEC_BUDGET = 50000` of
`BarangayAgent.receive_budget` (barangay_agent.py line 46). -/
def MAX_IEC_BUDGET : ℚ := 50000

/-- The flat saturation constant `MAX_ENFORCEMENT_BUDGET = 50000`
(barangay_agent.py line 47). -/
def MAX_ENFORCEMENT_BUDGET : ℚ := 50000

/-- `BarangayAgent.receive_budget` (barangay_agent.py lines 27-50): store the
three fund values and recompute both intensities against the flat constants
above.  The three arguments are the values of the `iec`, `enforcement` and
`incentive` keys of the allocation dict (default 0.0 via `.get`). -/
def BarangayAgent.receive_budget (b : BarangayAgent)
    (iec enforcement incentive : ℚ) : BarangayAgent :=
  { b with
    iec_budget := iec
    enforcement_budget := enforcement
    incentive_budget := incentive
    iec_intensity := min 1 (iec / MAX_IEC_BUDGET)
    enforcement_intensity := min 1 (enforcement / MAX_ENFORCEMENT_BUDGET) }

/-- `self.alpha_sensitivity = 0.05` (bacolod_model.py line 63). -/
def alpha_sensitivity : ℚ := 5/100

/-- `self.beta_recovery = 0.02` (bacolod_model.py line 64). -/
def beta_recovery : ℚ := 2/100

/-- `BacolodModel.update_political_capital` (bacolod_model.py lines 129-138):
average the barangays' enforcement intensities (0 when there are none),
subtract `alpha * avg`, add `beta * (1 - avg)`, and clamp to [0,1]. -/
def update_political_capital (political_capital : ℚ) (intensities : List ℚ) : ℚ :=
  let avg_enforcement :=
    if intensities.isEmpty then 0 else intensities.sum / (intensities.length : ℚ)
  let decay := alpha_sensitivity * avg_enforcement
  let recovery := beta_recovery * (1 - avg_enforcement)
  max 0 (min 1 (political_capital - decay + recovery))

/-- Political capital after a sequence of model steps, each supplying the
list of barangay enforcement intensities seen at that step. -/
def run_political_capital (pc0 : ℚ) (seq : List (List ℚ)) : ℚ :=
  seq.foldl (fun pc ints => update_political_capital pc ints) pc0

/-- The scale factor of `BacolodModel.apply_action` (bacolod_model.py lines
319-328): `quarterly_budget / total_desire` when the action vector's entries
sum to a positive value, 0 otherwise. -/
def apply_action_scale (quarterly_budget : ℚ) (action_vector : List ℚ) : ℚ :=
  let total_desire := action_vector.sum
  if total_desire > 0 then quarterly_budget / total_desire else 0

/-- The fund amounts distributed by `BacolodModel.apply_action` (bacolod_model.py
lines 330-337): every entry of the action vector multiplied by the scale
factor.  Entry `3*i` is barangay i's IEC fund, `3*i+1` its enforcement fund,
`3*i+2` its incentive fund. -/
def apply_action_funds (quarterly_budget : ℚ) (action_vector : List ℚ) : List ℚ :=
  action_vector.map (fun x => x * apply_action_scale quarterly_budget action_vector)

/-- `COST_PER_ENFORCER_QUARTER = 36000.0` (bacolod_model.py line 177). -/
def COST_PER_ENFORCER_QUARTER : ℚ := 36000

/-- Python `int()` truncation toward zero on a rational, as applied to the
float division in `int(barangay.enf_fund / COST_PER_ENFORCER_QUARTER)`. -/
def pyInt (x : ℚ) : ℤ := if 0 ≤ x then ⌊x⌋ else ⌈x⌉

/-- `BacolodModel.adjust_enforcement_agents` (bacolod_model.py lines 172-214),
viewed on the list of EnforcementAgent ids assigned to one barangay:
compute `target_count`, spawn the shortfall with fresh ids from the global
counter, or remove the surplus taken from the front of the current list
(`current_agents[:abs(diff)]`).  Returns the barangay's assigned ids and
the updated id counter. -/
def adjust_enforcement_agents (enf_fund : ℚ) (current_agents : List ℕ)
    (agent_id_counter : ℕ) : List ℕ × ℕ :=
  let target_count : ℤ := pyInt (enf_fund / COST_PER_ENFORCER_QUARTER)
  let current_count : ℤ := (current_agents.length : ℤ)
  let diff := target_count - current_count
  if 0 < diff then
    (current_agents ++ (List.range diff.toNat).map (fun k => agent_id_counter + k),
     agent_id_counter + diff.toNat)
  else if diff < 0 then
    (current_agents.drop (-diff).toNat, agent_id_counter)
  else
    (current_agents, agent_id_counter)

/-- The parameter names accepted by `HouseholdAgent.__init__`
(household_agent.py line 13). -/
def householdInitParams : List String :=
  ["unique_id", "model", "income_level", "initial_compliance"]

/-- The keyword arguments `BacolodModel.__init__` passes to the
`HouseholdAgent` constructor (bacolod_model.py lines 101-107); `unique_id`
and `model` are passed positionally. -/
def householdCallKeywords : List String :=
  ["income_level", "initial_compliance", "behavior_params"]

/-- Python keyword-argument checking: a keyword not among the accepted
parameter names raises `TypeError` naming the first offender. -/
def checkKeywords (accepted given : List String) : Except String Unit :=
  match given.find? (fun k => !(accepted.contains k)) with
  | some k => Except.error ("TypeError: __init__() got an unexpected keyword argument " ++ k)
  | none => Except.ok ()

/-- One `HouseholdAgent(...)` construction attempt as made by
`BacolodModel.__init__`. -/
def create_household : Except String Unit :=
  checkKeywords householdInitParams householdCallKeywords

/-- The inner household-creation loop of `BacolodModel.__init__`
(`for _ in range(n_households)`). -/
def create_households : ℕ → Except String Unit
  | 0 => Except.ok ()
  | n + 1 => do
    create_household
    create_households n

/-- The household-creation part of `BacolodModel.__init__`, over the
configuration's `N_HOUSEHOLDS` list (one entry per barangay). -/
def bacolod_init_households : List ℕ → Except String Unit
  | [] => Except.ok ()
  | c :: cs => do
    create_households c
    bacolod_init_households cs

/-- The `N_HOUSEHOLDS` values of `config.BARANGAY_CONFIGS`
(barangay_config.py lines 58-122). -/
def BARANGAY_N_HOUSEHOLDS : List ℕ := [1530, 584, 678, 476, 169, 160, 496]

/-- A Python object reduced to its set of attribute names, for claims about
dynamic attribute errors. -/
structure PyObj where
  attrs : List String
deriving DecidableEq

/-- Attribute lookup on a `PyObj`. -/
def PyObj.getattr (b : PyObj) (nm : String) : Except String Unit :=
  pyGetattr b.attrs nm

/-- The attribute names present on a `BarangayAgent` instance inside a
`BacolodModel`: the fields assigned in `BarangayAgent.__init__`
(barangay_agent.py lines 9-25), the methods of the class body, the `name`
and `fine_amount` attributes injected by `BacolodModel.__init__`
(bacolod_model.py lines 73-78), and the mesa `Agent` base attributes.
Nothing in the repository defines or assigns `get_local_compliance`,
`update_policy`, `iec_fund`, `enf_fund` or `inc_fund` on these objects. -/
def barangayAgentAttrs : List String :=
  ["unique_id", "model", "pos", "random",
   "compliance_rate", "total_households", "compliant_count",
   "iec_budget", "enforcement_budget", "incentive_budget",
   "enforcement_intensity", "iec_intensity",
   "receive_budget", "get_compliance_rate", "step",
   "name", "fine_amount"]

/-- Sequentially access attribute `nm` on every object of the list, as a
Python loop or comprehension over `self.barangays` does; the first missing
attribute aborts with its AttributeError. -/
def accessAll (bgys : List PyObj) (nm : String) : Except String Unit :=
  match bgys with
  | [] => Except.ok ()
  | b :: rest => do
    b.getattr nm
    accessAll rest nm

/-- The fallible part of `BacolodModel.get_state` (bacolod_model.py lines
293-310): the comprehension `[b.get_local_compliance() for b in
self.barangays]`; the remaining arithmetic on budget, time and political
capital is pure and elided. -/
def BacolodModel.get_state (bgys : List PyObj) : Except String Unit :=
  accessAll bgys "get_local_compliance"

/-- The per-barangay loop of `BacolodModel.apply_action` (bacolod_model.py
lines 330-344): after the pure fund computation, each iteration calls
`bgy.update_policy(...)` and then `adjust_enforcement_agents`, which reads
`barangay.enf_fund`. -/
def apply_action_loop : List PyObj → Except String Unit
  | [] => Except.ok ()
  | b :: rest => do
    b.getattr "update_policy"
    b.getattr "enf_fund"
    apply_action_loop rest

/-- The fallible part of `BacolodModel.apply_action` (bacolod_model.py lines
312-344): the scale factor is pure, then the per-barangay loop runs. -/
def BacolodModel.apply_action_run (bgys : List PyObj) : Except String Unit :=
  apply_action_loop bgys

/-- The fallible part of `BacolodModel.calculate_costs` (bacolod_model.py
lines 140-170): the three sums over `b.iec_fund`, `b.enf_fund` and
`b.inc_fund`; the remaining ledger arithmetic is pure and elided. -/
def BacolodModel.calculate_costs_run (bgys : List PyObj) : Except String Unit := do
  accessAll bgys "iec_fund"
  accessAll bgys "enf_fund"
  accessAll bgys "inc_fund"

/-- The fallible part of `BacolodModel.calculate_reward` (bacolod_model.py
lines 346-374): with a nonempty barangay list it sums
`b.get_local_compliance()` and then `b.enforcement_intensity`; with an
empty list it touches no barangay attribute. -/
def BacolodModel.calculate_reward_run (bgys : List PyObj) : Except String Unit :=
  if bgys.isEmpty then Except.ok ()
  else do
    accessAll bgys "get_local_compliance"
    accessAll bgys "enforcement_intensity"

/-- The fallible skeleton of `BacolodModel.step` (bacolod_model.py lines
216-269) with respect to barangay attribute accesses: at a quarter boundary
(`steps % 90 == 0`) it first runs `get_state`, then `apply_action`, then
the schedule step (whose outcome is passed in abstractly) and
`calculate_costs`; otherwise it runs the schedule step and
`calculate_costs`. -/
def BacolodModel.step_run (bgys : List PyObj) (steps : ℕ)
    (schedule_step : Except String Unit) : Except String Unit :=
  if steps % 90 = 0 then do
    BacolodModel.get_state bgys
    BacolodModel.apply_action_run bgys
    schedule_step
    BacolodModel.calculate_costs_run bgys
  else do
    schedule_step
    BacolodModel.calculate_costs_run bgys

/-! ## Sample concrete instances used by witnesses -/

/-- A household with the post-`__init__` values of a compliant agent:
attitude 0.66, a pbc of 0.7, social norm 0.5. -/
def sampleHousehold : HouseholdAgent :=
  { income_level := 2, attitude := 33/50, pbc := 7/10, social_norm := 1/2,
    is_compliant := true, utility := 0, caught_recently := false,
    barangay_id := "BGY_0" }

/-- The default barangay policy values set by `BacolodModel.__init__`
(bacolod_model.py lines 76-78). -/
def sampleBarangayPolicy : BarangayPolicy :=
  { iec_intensity := 0, enforcement_intensity := 1/2, fine_amount := 500 }

/-- A household whose attitude is exactly 0.5, used to exhibit the
attitude-update behaviour. -/
def sampleHalfAttitude : HouseholdAgent :=
  { income_level := 1, attitude := 1/2, pbc := 7/10, social_norm := 1/2,
    is_compliant := false, utility := 0, caught_recently := false,
    barangay_id := "BGY_0" }

/-- A barangay with 100 households and otherwise fresh `__init__` state. -/
def sampleBarangaySmall : BarangayAgent :=
  { compliance_rate := 0, total_households := 100, compliant_count := 0,
    iec_budget := 0, enforcement_budget := 0, incentive_budget := 0,
    enforcement_intensity := 0, iec_intensity := 0 }

/-- A barangay with 1000 households and otherwise fresh `__init__` state. -/
def sampleBarangayLarge : BarangayAgent :=
  { compliance_rate := 0, total_households := 1000, compliant_count := 0,
    iec_budget := 0, enforcement_budget := 0, incentive_budget := 0,
    enforcement_intensity := 0, iec_intensity := 0 }

/-! ## C4 — get_fined side effects -/

/-- C4 counterexample: at a concrete household with attitude 0.5 and a
zeroed ledger, `get_fined` leaves the attitude at 0.5 and both ledger fine
counters at 0, refuting the claim that it reduces attitude by a fixed
penalty and adds the fine amount to the collected and recently-collected
counters. -/
theorem C4_counterexample :
    (HouseholdAgent.get_fined
      { income_level := 1, attitude := 1/2, pbc := 7/10, social_norm := 1/2,
        is_compliant := false, utility := 0, caught_recently := false,
        barangay_id := "BGY_0" }
      { total_fines_collected := 0, recent_fines_collected := 0 }).1.attitude = 1/2 ∧
    (HouseholdAgent.get_fined
      { income_level := 1, attitude := 1/2, pbc := 7/10, social_norm := 1/2,
        is_compliant := false, utility := 0, caught_recently := false,
        barangay_id := "BGY_0" }
      { total_fines_collected := 0, recent_fines_collected := 0 }).2.total_fines_collected = 0 ∧
    (HouseholdAgent.get_fined
      { income_level := 1, attitude := 1/2, pbc := 7/10, social_norm := 1/2,
        is_compliant := false, utility := 0, caught_recently := false,
        barangay_id := "BGY_0" }
      { total_fines_collected := 0, recent_fines_collected := 0 }).2.recent_fines_collected = 0 :=
  ⟨rfl, rfl, rfl⟩

/-- C4 (amended): for every household and ledger state, `get_fined`
subtracts exactly 0.5 from the current-step utility and sets the
`caught_recently` flag; the attitude and the ledger (both fine counters)
are unchanged. -/
theorem C4_get_fined_amended (a : HouseholdAgent) (l : Ledger) :
    (a.get_fined l).1.utility = a.utility - 1/2 ∧
    (a.get_fined l).1.caught_recently = true ∧
    (a.get_fined l).1.attitude = a.attitude ∧
    (a.get_fined l).2 = l :=
  ⟨rfl, rfl, rfl, rfl⟩

/-! ## C6 — reactance penalty is in the shadowed definition only -/

/-- C6: the per-step attitude update actually in effect (the later of the
two `update_attitude` definitions) applies no reactance penalty.  At a
household with attitude 0.5 and IEC intensity 0, an enforcement intensity
of 0.9 (above the 0.8 threshold) yields exactly the same attitude 0.49 as
an enforcement intensity of 0, because the effective definition never reads
the enforcement intensity; the shadowed earlier definition would have
produced 0.493 versus 0.495, subtracting the 0.002 penalty. -/
theorem C6_reactance_not_applied :
    (HouseholdAgent.update_attitude sampleHalfAttitude
      { iec_intensity := 0, enforcement_intensity := 9/10, fine_amount := 500 }).attitude
      = 49/100 ∧
    (HouseholdAgent.update_attitude sampleHalfAttitude
      { iec_intensity := 0, enforcement_intensity := 0, fine_amount := 500 }).attitude
      = 49/100 ∧
    (HouseholdAgent.update_attitude_shadowed sampleHalfAttitude
      { iec_intensity := 0, enforcement_intensity := 9/10, fine_amount := 500 }).attitude
      = 493/1000 ∧
    (HouseholdAgent.update_attitude_shadowed sampleHalfAttitude
      { iec_intensity := 0, enforcement_intensity := 0, fine_amount := 500 }).attitude
      = 495/1000 := by
  refine ⟨?_, ?_, ?_, ?_⟩ <;>
    norm_num [HouseholdAgent.update_attitude, HouseholdAgent.update_attitude_shadowed,
      sampleHalfAttitude, clamp01, min_def, max_def]

/-! ## C7 — education intensity uses a flat saturation constant -/

/-- C7 counterexample: no two barangays with different populations ever get
different IEC intensities from the same education fund, because
`receive_budget` normalises against the flat constant `MAX_IEC_BUDGET`,
not a population-scaled saturation target. -/
theorem C7_counterexample :
    ¬ ∃ (b1 b2 : BarangayAgent) (iec e1 i1 e2 i2 : ℚ),
      b1.total_households ≠ b2.total_households ∧
      (b1.receive_budget iec e1 i1).iec_intensity ≠
        (b2.receive_budget iec e2 i2).iec_intensity := by
  rintro ⟨b1, b2, iec, e1, i1, e2, i2, _, hne⟩
  exact hne rfl

/-- C7 (amended): `receive_budget` recomputes the education intensity as
`min(1, education_fund / 50000)` against the flat constant
`MAX_IEC_BUDGET = 50000`; the result is independent of the barangay and in
particular of its population, and for a non-negative fund lies in [0,1]. -/
theorem C7_receive_budget_amended (b1 b2 : BarangayAgent) (iec e1 i1 e2 i2 : ℚ)
    (hiec : 0 ≤ iec) :
    (b1.receive_budget iec e1 i1).iec_intensity = min 1 (iec / MAX_IEC_BUDGET) ∧
    (b1.receive_budget iec e1 i1).iec_intensity =
      (b2.receive_budget iec e2 i2).iec_intensity ∧
    0 ≤ (b1.receive_budget iec e1 i1).iec_intensity ∧
    (b1.receive_budget iec e1 i1).iec_intensity ≤ 1 := by
  refine ⟨rfl, rfl, ?_, min_le_left _ _⟩
  show (0:ℚ) ≤ min 1 (iec / MAX_IEC_BUDGET)
  have h50 : (0:ℚ) ≤ MAX_IEC_BUDGET := by norm_num [MAX_IEC_BUDGET]
  exact le_min (by norm_num) (div_nonneg hiec h50)

/-- C7 amended witness: barangays with populations 100 and 1000 and the
same 25000-peso education fund. -/
theorem C7_receive_budget_amended_witness :
    0 ≤ (25000 : ℚ) ∧
    ((sampleBarangaySmall.receive_budget 25000 0 0).iec_intensity
        = min 1 (25000 / MAX_IEC_BUDGET) ∧
     (sampleBarangaySmall.receive_budget 25000 0 0).iec_intensity
        = (sampleBarangayLarge.receive_budget 25000 0 0).iec_intensity ∧
     0 ≤ (sampleBarangaySmall.receive_budget 25000 0 0).iec_intensity ∧
     (sampleBarangaySmall.receive_budget 25000 0 0).iec_intensity ≤ 1) :=
  ⟨by norm_num,
   C7_receive_budget_amended sampleBarangaySmall sampleBarangayLarge 25000 0 0 0 0
     (by norm_num)⟩

/-! ## C2 — enforcement headcount re-derived from the fund -/

/-- C2: immediately after `adjust_enforcement_agents` runs, the number of
EnforcementAgents assigned to the barangay equals
`floor(enf_fund / 36000)`, re-derived from the fund regardless of the
previous count or the id counter. -/
theorem C2_enforcement_headcount (enf_fund : ℚ) (current_agents : List ℕ)
    (agent_id_counter : ℕ) (h : 0 ≤ enf_fund) :
    ((adjust_enforcement_agents enf_fund current_agents agent_id_counter).1.length : ℤ)
      = ⌊enf_fund / COST_PER_ENFORCER_QUARTER⌋ := by
  have hc : (0:ℚ) ≤ COST_PER_ENFORCER_QUARTER := by norm_num [COST_PER_ENFORCER_QUARTER]
  have hq : 0 ≤ enf_fund / COST_PER_ENFORCER_QUARTER := div_nonneg h hc
  have hpy : pyInt (enf_fund / COST_PER_ENFORCER_QUARTER)
      = ⌊enf_fund / COST_PER_ENFORCER_QUARTER⌋ := by
    simp [pyInt, hq]
  have hT : 0 ≤ ⌊enf_fund / COST_PER_ENFORCER_QUARTER⌋ := Int.floor_nonneg.mpr hq
  unfold adjust_enforcement_agents
  rw [hpy]
  set T := ⌊enf_fund / COST_PER_ENFORCER_QUARTER⌋ with hTdef
  dsimp only
  split_ifs with h1 h2
  · dsimp only
    simp only [List.length_append, List.length_map, List.length_range]
    omega
  · dsimp only
    simp only [List.length_drop]
    omega
  · dsimp only
    omega

/-- C2 witness: a fund of 2.5 times the 36000-peso per-unit cost yields
exactly 2 units. -/
theorem C2_enforcement_headcount_witness :
    0 ≤ (90000 : ℚ) ∧
    ((adjust_enforcement_agents 90000 [] 0).1.length : ℤ)
      = ⌊(90000 : ℚ) / COST_PER_ENFORCER_QUARTER⌋ ∧
    (adjust_enforcement_agents 90000 [] 0).1.length = 2 :=
  ⟨by norm_num, C2_enforcement_headcount 90000 [] 0 (by norm_num),
   by norm_num [adjust_enforcement_agents, pyInt, COST_PER_ENFORCER_QUARTER]; rfl⟩

/-! ## C3 — allocation scaling to the quarterly budget -/

/-- Sum of a list after multiplying every entry by a constant. -/
theorem sum_map_mul_const (l : List ℚ) (c : ℚ) :
    (l.map (fun x => x * c)).sum = l.sum * c := by
  induction l with
  | nil => simp
  | cons x xs ih => simp [ih, add_mul]

/-- C3: for every non-negative action vector and non-negative quarterly
budget, `apply_action` distributes funds that sum to exactly the quarterly
budget when the vector's total is positive, are all zero when the total is
zero, and in every case never exceed the quarterly budget. -/
theorem C3_allocation_scaling (quarterly_budget : ℚ) (action_vector : List ℚ)
    (hb : 0 ≤ quarterly_budget) (hnn : ∀ x ∈ action_vector, 0 ≤ x) :
    (0 < action_vector.sum →
      (apply_action_funds quarterly_budget action_vector).sum = quarterly_budget) ∧
    (action_vector.sum = 0 →
      ∀ f ∈ apply_action_funds quarterly_budget action_vector, f = 0) ∧
    (apply_action_funds quarterly_budget action_vector).sum ≤ quarterly_budget := by
  have hsum : (apply_action_funds quarterly_budget action_vector).sum
      = action_vector.sum * apply_action_scale quarterly_budget action_vector :=
    sum_map_mul_const _ _
  have hpos : 0 < action_vector.sum →
      (apply_action_funds quarterly_budget action_vector).sum = quarterly_budget := by
    intro hp
    rw [hsum, apply_action_scale, if_pos hp, mul_div_cancel₀ _ (ne_of_gt hp)]
  refine ⟨hpos, ?_, ?_⟩
  · intro hz f hf
    rcases List.mem_map.mp hf with ⟨x, _, hx⟩
    rw [apply_action_scale, if_neg (by rw [hz]; exact lt_irrefl 0)] at hx
    simpa using hx.symm
  · rcases (List.sum_nonneg hnn).lt_or_eq with hp | hz
    · rw [hpos hp]
    · rw [hsum, apply_action_scale, if_neg (by rw [← hz]; exact lt_irrefl _)]
      simpa using hb

/-- C3 witness: the default IEC-policy action vector, seven copies of
[0.3, 0.7, 0.0], against the 375000-peso quarterly budget. -/
theorem C3_allocation_scaling_witness :
    (0 ≤ (375000 : ℚ) ∧
      ∀ x ∈ [(3:ℚ)/10, 7/10, 0, 3/10, 7/10, 0, 3/10, 7/10, 0, 3/10, 7/10, 0,
             3/10, 7/10, 0, 3/10, 7/10, 0, 3/10, 7/10, 0], 0 ≤ x) ∧
    ((0 < ([(3:ℚ)/10, 7/10, 0, 3/10, 7/10, 0, 3/10, 7/10, 0, 3/10, 7/10, 0,
            3/10, 7/10, 0, 3/10, 7/10, 0, 3/10, 7/10, 0]).sum →
      (apply_action_funds 375000 [(3:ℚ)/10, 7/10, 0, 3/10, 7/10, 0, 3/10, 7/10, 0,
        3/10, 7/10, 0, 3/10, 7/10, 0, 3/10, 7/10, 0, 3/10, 7/10, 0]).sum = 375000) ∧
     (([(3:ℚ)/10, 7/10, 0, 3/10, 7/10, 0, 3/10, 7/10, 0, 3/10, 7/10, 0,
        3/10, 7/10, 0, 3/10, 7/10, 0, 3/10, 7/10, 0]).sum = 0 →
      ∀ f ∈ apply_action_funds 375000 [(3:ℚ)/10, 7/10, 0, 3/10, 7/10, 0, 3/10, 7/10, 0,
        3/10, 7/10, 0, 3/10, 7/10, 0, 3/10, 7/10, 0, 3/10, 7/10, 0], f = 0) ∧
     (apply_action_funds 375000 [(3:ℚ)/10, 7/10, 0, 3/10, 7/10, 0, 3/10, 7/10, 0,
        3/10, 7/10, 0, 3/10, 7/10, 0, 3/10, 7/10, 0, 3/10, 7/10, 0]).sum ≤ 375000) :=
  ⟨⟨by norm_num, by intro x hx; fin_cases hx <;> norm_num⟩,
   C3_allocation_scaling 375000 _ (by norm_num) (by intro x hx; fin_cases hx <;> norm_num)⟩

/-! ## C5 — political capital stays in [0,1] -/

/-- One political-capital update always lands in [0,1], whatever the prior
value and the intensity list. -/
theorem update_political_capital_mem (pc : ℚ) (ints : List ℚ) :
    0 ≤ update_political_capital pc ints ∧ update_political_capital pc ints ≤ 1 := by
  unfold update_political_capital
  exact ⟨le_max_left 0 _, max_le (by norm_num) (min_le_left _ _)⟩

/-- Folding political-capital updates from a value already in [0,1] stays
in [0,1]. -/
theorem run_political_capital_mem_aux (seq : List (List ℚ)) (pc : ℚ)
    (h0 : 0 ≤ pc) (h1 : pc ≤ 1) :
    0 ≤ run_political_capital pc seq ∧ run_political_capital pc seq ≤ 1 := by
  induction seq generalizing pc with
  | nil => exact ⟨h0, h1⟩
  | cons s rest ih =>
    have hs := update_political_capital_mem pc s
    simpa [run_political_capital] using ih (update_political_capital pc s) hs.1 hs.2

/-- C5: after any nonempty sequence of `update_political_capital` steps —
in particular 1000 consecutive steps with every enforcement intensity at
1.0 — political capital lies in [0,1] and never goes below 0, from any
starting value. -/
theorem C5_political_capital_bounds (pc0 : ℚ) (seq : List (List ℚ)) (h : seq ≠ []) :
    0 ≤ run_political_capital pc0 seq ∧ run_political_capital pc0 seq ≤ 1 := by
  cases seq with
  | nil => exact absurd rfl h
  | cons s rest =>
    have hs := update_political_capital_mem pc0 s
    simpa [run_political_capital] using
      run_political_capital_mem_aux rest (update_political_capital pc0 s) hs.1 hs.2

set_option maxRecDepth 8000 in
/-- C5 witness: enforcement intensity held at 1.0 in every barangay for
1000 consecutive steps, starting from the initial political capital 1.0. -/
theorem C5_political_capital_bounds_witness :
    List.replicate 1000 [(1:ℚ)] ≠ [] ∧
    (0 ≤ run_political_capital 1 (List.replicate 1000 [(1:ℚ)]) ∧
     run_political_capital 1 (List.replicate 1000 [(1:ℚ)]) ≤ 1) :=
  ⟨by intro h; simpa using congrArg List.length h,
   C5_political_capital_bounds 1 _ (by intro h; simpa using congrArg List.length h)⟩

/-! ## C1 — TPB state bounds after the step updates -/

/-- The TPB state of a household lies in [0,1]: attitude, subjective norm
and perceived behavioural control. -/
def tpbStateOK (a : HouseholdAgent) : Prop :=
  0 ≤ a.attitude ∧ a.attitude ≤ 1 ∧
  0 ≤ a.social_norm ∧ a.social_norm ≤ 1 ∧
  0 ≤ a.pbc ∧ a.pbc ≤ 1

instance (a : HouseholdAgent) : Decidable (tpbStateOK a) := by
  unfold tpbStateOK; infer_instance

/-- The effective attitude update sends a [0,1] attitude back into [0,1]. -/
theorem update_attitude_bounds (a : HouseholdAgent) (bgy : BarangayPolicy)
    (h1 : a.attitude ≤ 1) :
    0 ≤ (a.update_attitude bgy).attitude ∧ (a.update_attitude bgy).attitude ≤ 1 := by
  unfold HouseholdAgent.update_attitude
  dsimp only
  split_ifs with h
  · refine ⟨le_min (by norm_num) ?_, min_le_left _ _⟩
    have hmax : (0:ℚ) ≤ max 0 (a.attitude - 1/100) := le_max_left _ _
    nlinarith
  · exact ⟨le_max_left _ _, max_le (by norm_num) (by linarith)⟩

/-- The effective attitude update changes no field but the attitude. -/
theorem update_attitude_only_attitude (a : HouseholdAgent) (bgy : BarangayPolicy) :
    (a.update_attitude bgy).pbc = a.pbc ∧
    (a.update_attitude bgy).social_norm = a.social_norm ∧
    (a.update_attitude bgy).barangay_id = a.barangay_id := by
  unfold HouseholdAgent.update_attitude
  dsimp only
  split_ifs <;> exact ⟨rfl, rfl, rfl⟩

/-- The social-norm computation always returns a value in [0,1]. -/
theorem update_social_norms_bounds (a : HouseholdAgent) (neighbors : List NeighborView) :
    0 ≤ a.update_social_norms neighbors ∧ a.update_social_norms neighbors ≤ 1 := by
  unfold HouseholdAgent.update_social_norms
  dsimp only
  split_ifs with hempty hgt
  · norm_num
  · refine ⟨le_min (by norm_num) ?_, min_le_left _ _⟩
    have hnum : (0:ℚ) ≤
        (((neighbors.filter (fun n => n.barangay_id == a.barangay_id)).filter
          (fun n => n.is_compliant)).length : ℚ) := by positivity
    have hden : (0:ℚ) ≤
        ((neighbors.filter (fun n => n.barangay_id == a.barangay_id)).length : ℚ) := by
      positivity
    have hraw := div_nonneg hnum hden
    nlinarith
  · have hne : (neighbors.filter (fun n => n.barangay_id == a.barangay_id)) ≠ [] := by
      simpa [List.isEmpty_iff] using hempty
    have hlen : (0:ℚ) <
        ((neighbors.filter (fun n => n.barangay_id == a.barangay_id)).length : ℚ) := by
      exact_mod_cast List.length_pos.mpr hne
    have hle : (((neighbors.filter (fun n => n.barangay_id == a.barangay_id)).filter
          (fun n => n.is_compliant)).length : ℚ)
        ≤ ((neighbors.filter (fun n => n.barangay_id == a.barangay_id)).length : ℚ) := by
      exact_mod_cast List.length_filter_le _ _
    have hnum : (0:ℚ) ≤
        (((neighbors.filter (fun n => n.barangay_id == a.barangay_id)).filter
          (fun n => n.is_compliant)).length : ℚ) := by positivity
    have hraw0 := div_nonneg hnum hlen.le
    have hraw1 : (((neighbors.filter (fun n => n.barangay_id == a.barangay_id)).filter
          (fun n => n.is_compliant)).length : ℚ)
        / ((neighbors.filter (fun n => n.barangay_id == a.barangay_id)).length : ℚ) ≤ 1 :=
      (div_le_one hlen).mpr hle
    constructor <;> nlinarith

/-- With no same-barangay household neighbour the social norm is 0.5. -/
theorem update_social_norms_no_neighbors (a : HouseholdAgent)
    (neighbors : List NeighborView)
    (h : (neighbors.filter (fun n => n.barangay_id == a.barangay_id)).isEmpty) :
    a.update_social_norms neighbors = 1/2 := by
  unfold HouseholdAgent.update_social_norms
  dsimp only
  rw [if_pos h]

/-- C1: after the behavioural-state updates of `HouseholdAgent.step`, the
attitude, the subjective norm and the perceived behavioural control all
remain in [0,1]; the pbc field is not modified; and with no same-barangay
neighbour the norm is set to 0.5. -/
theorem C1_tpb_state_bounds (a : HouseholdAgent) (bgy : BarangayPolicy)
    (neighbors : List NeighborView) (reward_value epsilon : ℚ)
    (h : tpbStateOK a) :
    tpbStateOK (a.step_updates bgy neighbors reward_value epsilon) ∧
    (a.step_updates bgy neighbors reward_value epsilon).pbc = a.pbc ∧
    ((neighbors.filter (fun n => n.barangay_id == a.barangay_id)).isEmpty →
      (a.step_updates bgy neighbors reward_value epsilon).social_norm = 1/2) := by
  obtain ⟨ha0, ha1, -, -, hp0, hp1⟩ := h
  have hatt := update_attitude_bounds a bgy ha1
  have hfields := update_attitude_only_attitude a bgy
  have hnorm := update_social_norms_bounds (a.update_attitude bgy) neighbors
  refine ⟨⟨?_, ?_, ?_, ?_, ?_, ?_⟩, ?_, ?_⟩
  · exact hatt.1
  · exact hatt.2
  · exact hnorm.1
  · exact hnorm.2
  · rw [show (a.step_updates bgy neighbors reward_value epsilon).pbc
      = (a.update_attitude bgy).pbc from rfl, hfields.1]; exact hp0
  · rw [show (a.step_updates bgy neighbors reward_value epsilon).pbc
      = (a.update_attitude bgy).pbc from rfl, hfields.1]; exact hp1
  · rw [show (a.step_updates bgy neighbors reward_value epsilon).pbc
      = (a.update_attitude bgy).pbc from rfl, hfields.1]
  · intro hempty
    have hempty' : (neighbors.filter
        (fun n => n.barangay_id == (a.update_attitude bgy).barangay_id)).isEmpty := by
      rw [hfields.2.2]; exact hempty
    show (a.update_attitude bgy).update_social_norms neighbors = 1/2
    exact update_social_norms_no_neighbors _ neighbors hempty'

/-- C1 witness: a fresh compliant household with no neighbours under the
default barangay policy. -/
theorem C1_tpb_state_bounds_witness :
    tpbStateOK sampleHousehold ∧
    (tpbStateOK (sampleHousehold.step_updates sampleBarangayPolicy [] 0 0) ∧
     (sampleHousehold.step_updates sampleBarangayPolicy [] 0 0).pbc = sampleHousehold.pbc ∧
     ((([] : List NeighborView).filter
        (fun n => n.barangay_id == sampleHousehold.barangay_id)).isEmpty →
      (sampleHousehold.step_updates sampleBarangayPolicy [] 0 0).social_norm = 1/2)) :=
  ⟨by norm_num [tpbStateOK, sampleHousehold],
   C1_tpb_state_bounds sampleHousehold sampleBarangayPolicy [] 0 0
     (by norm_num [tpbStateOK, sampleHousehold])⟩

/-! ## C8 — model construction fails on the behavior_params keyword -/

/-- A single `HouseholdAgent(...)` construction attempt made by
`BacolodModel.__init__` raises the TypeError for `behavior_params`. -/
theorem create_household_fails :
    create_household =
      Except.error ("TypeError: __init__() got an unexpected keyword argument behavior_params") :=
  rfl

/-- C8: the household-construction part of `BacolodModel.__init__` raises
TypeError for the unexpected `behavior_params` keyword in every
configuration containing at least one household, so no `BacolodModel`
instance is ever produced. -/
theorem C8_construction_always_fails (cfg : List ℕ) (h : ∃ n ∈ cfg, 0 < n) :
    bacolod_init_households cfg =
      Except.error ("TypeError: __init__() got an unexpected keyword argument behavior_params") := by
  induction cfg with
  | nil => simp at h
  | cons c cs ih =>
    cases c with
    | zero =>
      have h' : ∃ n ∈ cs, 0 < n := by
        rcases h with ⟨n, hn, hp⟩
        rcases List.mem_cons.mp hn with h0 | hmem
        · subst h0; exact absurd hp (lt_irrefl 0)
        · exact ⟨n, hmem, hp⟩
      exact ih h'
    | succ m => rfl

/-- C8 witness: the repository's own configuration, whose first barangay
has 1530 households. -/
theorem C8_construction_always_fails_witness :
    (∃ n ∈ BARANGAY_N_HOUSEHOLDS, 0 < n) ∧
    bacolod_init_households BARANGAY_N_HOUSEHOLDS =
      Except.error ("TypeError: __init__() got an unexpected keyword argument behavior_params") :=
  ⟨by decide, C8_construction_always_fails BARANGAY_N_HOUSEHOLDS (by decide)⟩

/-! ## C9 — model methods fail on missing barangay attributes -/

/-- The conjunction asserted by C9 for a list of region objects: the four
model methods raise their AttributeErrors, the `BarangayAgent` interface
names do exist, and no `BacolodModel.step` completes normally. -/
def modelMethodsFail (bgys : List PyObj) : Prop :=
  BacolodModel.get_state bgys = Except.error ("AttributeError: get_local_compliance") ∧
  BacolodModel.apply_action_run bgys = Except.error ("AttributeError: update_policy") ∧
  BacolodModel.calculate_costs_run bgys = Except.error ("AttributeError: iec_fund") ∧
  BacolodModel.calculate_reward_run bgys = Except.error ("AttributeError: get_local_compliance") ∧
  ("get_compliance_rate" ∈ barangayAgentAttrs ∧ "receive_budget" ∈ barangayAgentAttrs ∧
   "iec_budget" ∈ barangayAgentAttrs) ∧
  ∀ (steps : ℕ) (schedule_step : Except String Unit),
    BacolodModel.step_run bgys steps schedule_step ≠ Except.ok ()

/-- Attribute lookup on a barangay object fails for a name outside its
attribute set. -/
theorem barangay_getattr_missing (b : PyObj) (hb : b.attrs = barangayAgentAttrs)
    (nm : String) (h : nm ∉ barangayAgentAttrs) :
    b.getattr nm = Except.error ("AttributeError: " ++ nm) := by
  simp [PyObj.getattr, pyGetattr, hb, h]

/-- Accessing a missing attribute across a nonempty list aborts at the
first object. -/
theorem accessAll_missing (b : PyObj) (rest : List PyObj)
    (hb : b.attrs = barangayAgentAttrs) (nm : String) (h : nm ∉ barangayAgentAttrs) :
    accessAll (b :: rest) nm = Except.error ("AttributeError: " ++ nm) := by
  simp [accessAll, barangay_getattr_missing b hb nm h, Bind.bind, Except.bind]

/-- C9: when the model's regions are `BarangayAgent` instances,
`get_state`, `apply_action`, `calculate_costs` and `calculate_reward` all
raise AttributeError for `get_local_compliance`, `update_policy` and the
fund fields — names that exist nowhere on `BarangayAgent`, which instead
provides `get_compliance_rate`, `receive_budget` and the budget fields —
and consequently no `BacolodModel.step` ever completes. -/
theorem C9_model_methods_fail (bgys : List PyObj) (hne : bgys ≠ [])
    (hb : ∀ b ∈ bgys, b.attrs = barangayAgentAttrs) :
    modelMethodsFail bgys := by
  obtain ⟨b, rest, rfl⟩ : ∃ b rest, bgys = b :: rest := by
    cases bgys with
    | nil => exact absurd rfl hne
    | cons b rest => exact ⟨b, rest, rfl⟩
  have hbb : b.attrs = barangayAgentAttrs := hb b (List.mem_cons_self b rest)
  have hstate : BacolodModel.get_state (b :: rest)
      = Except.error ("AttributeError: get_local_compliance") :=
    accessAll_missing b rest hbb _ (by decide)
  have hcosts : BacolodModel.calculate_costs_run (b :: rest)
      = Except.error ("AttributeError: iec_fund") := by
    unfold BacolodModel.calculate_costs_run
    rw [accessAll_missing b rest hbb _ (by decide)]
    rfl
  refine ⟨hstate, ?_, hcosts, ?_, by decide, ?_⟩
  · show apply_action_loop (b :: rest) = _
    unfold apply_action_loop
    rw [barangay_getattr_missing b hbb _ (by decide)]
    rfl
  · unfold BacolodModel.calculate_reward_run
    rw [if_neg (by simp)]
    rw [accessAll_missing b rest hbb _ (by decide)]
    rfl
  · intro steps schedule_step
    unfold BacolodModel.step_run
    split_ifs with hq
    · rw [hstate]; intro hcontra; cases hcontra
    · cases schedule_step with
      | ok u =>
        cases u
        show (do
          Except.ok ()
          BacolodModel.calculate_costs_run (b :: rest)) ≠ Except.ok ()
        rw [show (do
          Except.ok ()
          BacolodModel.calculate_costs_run (b :: rest))
            = BacolodModel.calculate_costs_run (b :: rest) from rfl, hcosts]
        intro hcontra; cases hcontra
      | error e =>
        intro hcontra
        exact absurd hcontra (by simp [Bind.bind, Except.bind])

/-- A single region object carrying exactly the `BarangayAgent`
attributes. -/
def sampleBarangayObj : PyObj := { attrs := barangayAgentAttrs }

/-- C9 witness: one region that is a `BarangayAgent` instance. -/
theorem C9_model_methods_fail_witness :
    ([sampleBarangayObj] ≠ []) ∧
    (∀ b ∈ [sampleBarangayObj], b.attrs = barangayAgentAttrs) ∧
    modelMethodsFail [sampleBarangayObj] :=
  ⟨by simp, by simp [sampleBarangayObj],
   C9_model_methods_fail [sampleBarangayObj] (by simp) (by simp [sampleBarangayObj])⟩

/-! ## C10 — household step always raises AttributeError, but on two paths -/

/-- The effective attitude update leaves the compliance flag and the
utility unchanged. -/
theorem update_attitude_keeps_compliance (a : HouseholdAgent) (bgy : BarangayPolicy) :
    (a.update_attitude bgy).is_compliant = a.is_compliant ∧
    (a.update_attitude bgy).utility = a.utility := by
  unfold HouseholdAgent.update_attitude
  dsimp only
  split_ifs <;> exact ⟨rfl, rfl⟩

/-- The `make_decision` lookup on a household instance fails. -/
theorem make_decision_lookup_fails :
    pyGetattr householdAgentAttrs "make_decision"
      = Except.error ("AttributeError: make_decision") := by
  rw [pyGetattr, if_neg (by decide)]
  rfl

/-- With the `reward_value` attribute absent from the model, the utility
computation of a compliant household raises its AttributeError. -/
theorem calculate_utility_run_compliant (a : HouseholdAgent) (bgy : BarangayPolicy)
    (epsilon : ℚ) (h : a.is_compliant = true) :
    a.calculate_utility_run bgy none epsilon
      = Except.error ("AttributeError: reward_value") := by
  unfold HouseholdAgent.calculate_utility_run
  rw [h]
  rfl

/-- For a non-compliant household the utility computation succeeds, never
reads the model, and agrees with the pure formula at incentive 0. -/
theorem calculate_utility_run_noncompliant (a : HouseholdAgent) (bgy : BarangayPolicy)
    (mrv : Option ℚ) (epsilon : ℚ) (h : a.is_compliant = false) :
    a.calculate_utility_run bgy mrv epsilon
      = Except.ok (a.calculate_utility bgy 0 epsilon) := by
  unfold HouseholdAgent.calculate_utility_run HouseholdAgent.calculate_utility
  rw [h]
  rfl

/-- For a compliant household with `reward_value` absent, `step` aborts
inside `calculate_utility`: the attitude and social-norm updates are in
effect, the utility and compliance flag are untouched, and the error names
`reward_value`. -/
theorem step_run_compliant (a : HouseholdAgent) (bgy : BarangayPolicy)
    (neighbors : List NeighborView) (epsilon : ℚ) (h : a.is_compliant = true) :
    a.step_run bgy neighbors none epsilon
      = ({ a.update_attitude bgy with
            social_norm := (a.update_attitude bgy).update_social_norms neighbors },
         Except.error ("AttributeError: reward_value")) := by
  have h2 : ({ a.update_attitude bgy with
      social_norm := (a.update_attitude bgy).update_social_norms neighbors
        } : HouseholdAgent).is_compliant = true := by
    show (a.update_attitude bgy).is_compliant = true
    rw [(update_attitude_keeps_compliance a bgy).1]
    exact h
  unfold HouseholdAgent.step_run
  dsimp only
  rw [calculate_utility_run_compliant _ bgy epsilon h2]

/-- For a non-compliant household `step` performs the full behavioural
update and then fails the `make_decision` lookup. -/
theorem step_run_noncompliant (a : HouseholdAgent) (bgy : BarangayPolicy)
    (neighbors : List NeighborView) (mrv : Option ℚ) (epsilon : ℚ)
    (h : a.is_compliant = false) :
    a.step_run bgy neighbors mrv epsilon
      = (a.step_updates bgy neighbors 0 epsilon,
         pyGetattr householdAgentAttrs "make_decision") := by
  have h2 : ({ a.update_attitude bgy with
      social_norm := (a.update_attitude bgy).update_social_norms neighbors
        } : HouseholdAgent).is_compliant = false := by
    show (a.update_attitude bgy).is_compliant = false
    rw [(update_attitude_keeps_compliance a bgy).1]
    exact h
  unfold HouseholdAgent.step_run HouseholdAgent.step_updates
  dsimp only
  rw [calculate_utility_run_noncompliant _ bgy mrv epsilon h2]

/-- C10 counterexample: at a concrete compliant household, `step` raises
AttributeError for `reward_value` inside `calculate_utility` — not for
`make_decision` — and the utility and compliance-flag mutations have not
taken effect when the exception propagates. -/
theorem C10_counterexample :
    (sampleHousehold.step_run sampleBarangayPolicy [] none 0).2
        = Except.error ("AttributeError: reward_value") ∧
    (sampleHousehold.step_run sampleBarangayPolicy [] none 0).2
        ≠ Except.error ("AttributeError: make_decision") ∧
    (sampleHousehold.step_run sampleBarangayPolicy [] none 0).1.utility
        = sampleHousehold.utility ∧
    (sampleHousehold.step_run sampleBarangayPolicy [] none 0).1.is_compliant
        = sampleHousehold.is_compliant := by
  have h := step_run_compliant sampleHousehold sampleBarangayPolicy [] 0 rfl
  refine ⟨?_, ?_, ?_, ?_⟩
  · rw [h]
  · rw [h]
    intro hc
    exact absurd (Except.error.inj hc) (by decide)
  · rw [h]
    show (sampleHousehold.update_attitude sampleBarangayPolicy).utility
        = sampleHousehold.utility
    exact (update_attitude_keeps_compliance sampleHousehold sampleBarangayPolicy).2
  · rw [h]
    show (sampleHousehold.update_attitude sampleBarangayPolicy).is_compliant
        = sampleHousehold.is_compliant
    exact (update_attitude_keeps_compliance sampleHousehold sampleBarangayPolicy).1

/-- C10 (amended): every `HouseholdAgent.step` raises AttributeError, so
no household step ever completes normally — but on two paths.  For a
compliant household, `calculate_utility`'s read of the never-assigned
`model.reward_value` aborts the step after the attitude and social-norm
updates and before the utility and compliance-flag mutations.  For a
non-compliant household, all the behavioural-state mutations take effect
and the final `self.make_decision()` call raises the AttributeError. -/
theorem C10_household_step_fails_amended (a : HouseholdAgent) (bgy : BarangayPolicy)
    (neighbors : List NeighborView) (epsilon : ℚ) :
    (a.step_run bgy neighbors none epsilon).2 ≠ Except.ok () ∧
    (a.is_compliant = true →
      (a.step_run bgy neighbors none epsilon).2
          = Except.error ("AttributeError: reward_value") ∧
      (a.step_run bgy neighbors none epsilon).1.utility = a.utility ∧
      (a.step_run bgy neighbors none epsilon).1.is_compliant = true ∧
      (a.step_run bgy neighbors none epsilon).1.attitude
          = (a.update_attitude bgy).attitude ∧
      (a.step_run bgy neighbors none epsilon).1.social_norm
          = (a.update_attitude bgy).update_social_norms neighbors) ∧
    (a.is_compliant = false →
      (a.step_run bgy neighbors none epsilon).2
          = Except.error ("AttributeError: make_decision") ∧
      (a.step_run bgy neighbors none epsilon).1
          = a.step_updates bgy neighbors 0 epsilon) := by
  refine ⟨?_, ?_, ?_⟩
  · cases hcomp : a.is_compliant with
    | true =>
      rw [step_run_compliant a bgy neighbors epsilon hcomp]
      exact fun hc => Except.noConfusion hc
    | false =>
      rw [step_run_noncompliant a bgy neighbors none epsilon hcomp,
        show ((a.step_updates bgy neighbors 0 epsilon,
          pyGetattr householdAgentAttrs "make_decision")).2
            = pyGetattr householdAgentAttrs "make_decision" from rfl,
        make_decision_lookup_fails]
      exact fun hc => Except.noConfusion hc
  · intro hcomp
    rw [step_run_compliant a bgy neighbors epsilon hcomp]
    refine ⟨rfl, ?_, ?_, rfl, rfl⟩
    · show (a.update_attitude bgy).utility = a.utility
      exact (update_attitude_keeps_compliance a bgy).2
    · show (a.update_attitude bgy).is_compliant = true
      rw [(update_attitude_keeps_compliance a bgy).1]
      exact hcomp
  · intro hcomp
    rw [step_run_noncompliant a bgy neighbors none epsilon hcomp]
    exact ⟨make_decision_lookup_fails, rfl⟩

/-- C10 amended witness: a concrete compliant household aborting on
`reward_value`, and a concrete non-compliant household whose mutations all
take effect before the `make_decision` failure. -/
theorem C10_household_step_fails_amended_witness :
    sampleHousehold.is_compliant = true ∧
    sampleHalfAttitude.is_compliant = false ∧
    (sampleHousehold.step_run sampleBarangayPolicy [] none 0).2
        = Except.error ("AttributeError: reward_value") ∧
    (sampleHalfAttitude.step_run sampleBarangayPolicy [] none 0).2
        = Except.error ("AttributeError: make_decision") ∧
    (sampleHalfAttitude.step_run sampleBarangayPolicy [] none 0).1
        = sampleHalfAttitude.step_updates sampleBarangayPolicy [] 0 0 :=
  ⟨rfl, rfl,
   ((C10_household_step_fails_amended sampleHousehold sampleBarangayPolicy [] 0).2.1 rfl).1,
   ((C10_household_step_fails_amended sampleHalfAttitude sampleBarangayPolicy [] 0).2.2 rfl).1,
   ((C10_household_step_fails_amended sampleHalfAttitude sampleBarangayPolicy [] 0).2.2 rfl).2⟩

end WasteSeg
